import Mathlib

/-!
Verification development for the marine-analysis utility scripts
(`check_env.py`, `check_data.py`, `smoke_iform.py`).

The three scripts are modelled as pure functions.  CSV cells are modelled
by their behaviour under `pd.to_numeric(..., errors="coerce")`: a cell is
either missing (`na`), coerces to a number (`num q`), or is textually
present but fails numeric coercion (`text`).  Filesystem paths are opaque
strings, except resolved paths in the environment checker which are lists
of path components (so that `Path.parents` membership is a proper-prefix
test).  Exceptions raised inside a script's core are modelled with
`Except String`.
-/

/-- A CSV cell, classified by how `pd.to_numeric(..., errors="coerce")`
treats it: missing, numeric-coercible (with its rational value), or a
non-numeric text value. -/
inductive Cell where
  | na : Cell
  | num : ℚ → Cell
  | text : Cell
deriving DecidableEq, Repr

/-- The numeric value a cell coerces to, if any (`pd.to_numeric` with
`errors="coerce"`, followed by `isna`/`dropna` distinctions). -/
def Cell.toNum : Cell → Option ℚ
  | .num q => some q
  | _ => none

/-- Whether the raw cell is missing (`Series.isna` on the raw column). -/
def Cell.isNA : Cell → Bool
  | .na => true
  | _ => false

/-- Minimum of a list of rationals, `none` on the empty list
(`Series.min` after `dropna`). -/
def listMin : List ℚ → Option ℚ
  | [] => none
  | x :: xs =>
    match listMin xs with
    | none => some x
    | some m => some (min x m)

/-- Maximum of a list of rationals, `none` on the empty list
(`Series.max` after `dropna`). -/
def listMax : List ℚ → Option ℚ
  | [] => none
  | x :: xs =>
    match listMax xs with
    | none => some x
    | some m => some (max x m)

theorem listMin_eq_none_iff (l : List ℚ) : listMin l = none ↔ l = [] := by
  cases l with
  | nil => simp [listMin]
  | cons x xs =>
    simp only [listMin]
    cases listMin xs <;> simp

theorem listMax_eq_none_iff (l : List ℚ) : listMax l = none ↔ l = [] := by
  cases l with
  | nil => simp [listMax]
  | cons x xs =>
    simp only [listMax]
    cases listMax xs <;> simp

theorem listMin_le_listMax (l : List ℚ) (a b : ℚ)
    (hmin : listMin l = some a) (hmax : listMax l = some b) : a ≤ b := by
  induction l generalizing a b with
  | nil => simp [listMin] at hmin
  | cons x xs ih =>
    simp only [listMin] at hmin
    simp only [listMax] at hmax
    cases h1 : listMin xs with
    | none =>
      have hxs : xs = [] := (listMin_eq_none_iff xs).mp h1
      subst hxs
      simp [listMin] at hmin
      simp [listMax] at hmax
      subst hmin; subst hmax; exact le_refl x
    | some m =>
      have hxs : xs ≠ [] := by
        intro hc; subst hc; simp [listMin] at h1
      cases h2 : listMax xs with
      | none => exact absurd ((listMax_eq_none_iff xs).mp h2) hxs
      | some M =>
        rw [h1] at hmin
        rw [h2] at hmax
        simp at hmin hmax
        subst hmin
        subst hmax
        calc min x m ≤ x := min_le_left _ _
          _ ≤ max x M := le_max_left _ _

namespace CheckEnv

/-- The fixed module list checked by `check_env.run`. -/
def module_names : List String :=
  ["virocon", "numpy", "pandas", "scipy", "sklearn", "matplotlib", "yaml"]

/-- Resolved filesystem paths as component lists; `root` is in
`Path(p).parents` exactly when the components of `root` are a proper
prefix of the components of `p`. -/
def ancestorOf : List String → List String → Bool
  | [], [] => false
  | [], _ :: _ => true
  | _ :: _, [] => false
  | a :: as, b :: bs => a == b && ancestorOf as bs

/-- Input to one run of the environment checker: for each module name,
whether `importlib.import_module` succeeds; the resolved file of the
`virocon` module (consulted only when its import succeeded); and the
resolved configured `repo_root`. -/
structure Input where
  importOk : String → Bool
  viroconFile : List String
  repoRoot : List String

/-- The JSON report of `check_env.run` (fields relevant to validation;
the `python_version` / `virocon_version` strings are environment data
echoed verbatim and are omitted). -/
structure EnvReport where
  success : Bool
  source_in_repo : Bool
  virocon_file : Option (List String)
  imports : List (String × Bool)
deriving DecidableEq, Repr

/-- `check_env.run`: attempt all imports, resolve the virocon file when
that import succeeded, test nesting under `repo_root`, and combine. -/
def run (inp : Input) : EnvReport × Nat :=
  let imports := module_names.map (fun n => (n, inp.importOk n))
  let virocon_file :=
    if inp.importOk "virocon" then some inp.viroconFile else none
  let source_in_repo :=
    if inp.importOk "virocon" then ancestorOf inp.repoRoot inp.viroconFile
    else false
  let success := imports.all (fun p => p.2) && source_in_repo
  ({ success := success, source_in_repo := source_in_repo,
     virocon_file := virocon_file, imports := imports },
   if success then 0 else 1)

/-- What `check_env.main` prints: either the report from `run`, or the
generic `{"success": false, "error": ...}` payload from the top-level
exception handler. -/
inductive EnvOut where
  | report : EnvReport → EnvOut
  | failure : String → EnvOut
deriving DecidableEq, Repr

/-- The `success` field of the emitted JSON payload. -/
def EnvOut.success : EnvOut → Bool
  | .report r => r.success
  | .failure _ => false

/-- `check_env.main` after argument parsing: run the core, catching any
exception into a failure payload with exit code 1. -/
def main (r : Except String Input) : EnvOut × Nat :=
  match r with
  | .error e => (.failure e, 1)
  | .ok inp => ((.report (run inp).1), (run inp).2)

end CheckEnv

namespace CheckData

/-- Required columns of the metocean CSV (`METOCEAN_REQUIRED`). -/
def METOCEAN_REQUIRED : List String :=
  ["valid_time", "10米风速", "有义波高", "峰值波周期"]

/-- Required columns of the current CSV (`CURRENT_REQUIRED`). -/
def CURRENT_REQUIRED : List String :=
  ["index", "流速 （节）", "流向 - 去向"]

/-- A pandas `DataFrame` as loaded from CSV: named columns in file order,
each a list of cells.  Rectangularity (all columns of equal length) is
captured by `Df.Wf`. -/
structure Df where
  cols : List (String × List Cell)
deriving DecidableEq, Repr

/-- The column names, `df.columns`. -/
def Df.columns (d : Df) : List String := d.cols.map Prod.fst

/-- Number of rows, `len(df)`. -/
def Df.nRows (d : Df) : Nat :=
  match d.cols with
  | [] => 0
  | p :: _ => p.2.length

/-- Column access `df[col]` (empty when absent; only used on columns
whose presence was checked). -/
def Df.getCol (d : Df) (col : String) : List Cell :=
  match d.cols.find? (fun p => p.1 == col) with
  | some p => p.2
  | none => []

/-- Keep only the first `n` rows of every column (the effect of
`pd.read_csv(..., nrows=n)`). -/
def Df.takeRows (d : Df) (n : Nat) : Df :=
  ⟨d.cols.map (fun p => (p.1, p.2.take n))⟩

/-- A dataframe is well formed when every column has exactly `nRows`
entries (pandas frames are rectangular by construction). -/
def Df.Wf (d : Df) : Prop := ∀ p ∈ d.cols, p.2.length = d.nRows

/-- `_missing_columns`: the required names absent from `df.columns`,
in required-list order. -/
def missing_columns (d : Df) (required : List String) : List String :=
  required.filter (fun col => !(d.columns.contains col))

/-- Per-column entry of the `numeric_stats` mapping emitted by
`_numeric_stats`; `na_rate` is `Series.mean` of the NA mask, which is
undefined (NaN) on an empty column, hence the `Option`. -/
structure ColStats where
  na_count : Nat
  na_rate : Option ℚ
  non_numeric_count : Nat
  min : Option ℚ
  max : Option ℚ
deriving DecidableEq, Repr

/-- The statistics `_numeric_stats` computes for one column: NA count and
rate on the raw values, count of present-but-non-numeric values, and
min/max of the numerically coerced values (None when none coerce). -/
def column_stats (raw : List Cell) : ColStats :=
  let na_count := (raw.filter Cell.isNA).length
  let numeric := raw.filterMap Cell.toNum
  { na_count := na_count,
    na_rate :=
      if raw.length = 0 then none
      else some ((na_count : ℚ) / (raw.length : ℚ)),
    non_numeric_count :=
      (raw.filter (fun c => !c.isNA && c.toNum.isNone)).length,
    min := listMin numeric,
    max := listMax numeric }

/-- `_numeric_stats`: the per-column statistics for the given columns,
keyed by column name in the given order. -/
def numeric_stats (d : Df) (columns : List String) : List (String × ColStats) :=
  columns.map (fun col => (col, column_stats (d.getCol col)))

/-- `nrows = 5000 if mode == "quick" else None`. -/
def modeNrows (mode : String) : Option Nat :=
  if mode = "quick" then some 5000 else none

/-- `_read_csv`: read the file, truncated to the first `nrows` rows when
a bound is given. -/
def read_csv (d : Df) (nrows : Option Nat) : Df :=
  match nrows with
  | none => d
  | some n => d.takeRows n

/-- Per-dataset section of the success report. -/
structure DatasetReport where
  rows_read : Nat
  columns : List String
  required_columns_ok : Bool
  numeric_stats : List (String × ColStats)
deriving DecidableEq, Repr

/-- The JSON report of `check_data.run`; `Option` fields mirror keys that
are present only in some branches of the dict construction. -/
structure DataReport where
  success : Bool
  mode : String
  errors : Option (List String)
  paths : Option (String × String)
  missing_columns : Option (List String × List String)
  metocean : Option DatasetReport
  current : Option DatasetReport
deriving DecidableEq, Repr

/-- Input to one run of the data checker: the two configured CSV paths,
whether each file exists (`Path.is_file`), and the file contents as
dataframes (consulted only when the file exists). -/
structure Input where
  metocean_path : String
  current_path : String
  metocean_exists : Bool
  current_exists : Bool
  metocean_csv : Df
  current_csv : Df
deriving Repr

/-- `check_data.run` translated branch for branch: missing files first,
then the column check on the (possibly truncated) reads, then the
numeric statistics on the required columns minus the identifier
columns. -/
def run (inp : Input) (mode : String) : DataReport × Nat :=
  let errors :=
    (if inp.metocean_exists then []
     else ["metocean_csv not found: " ++ inp.metocean_path]) ++
    (if inp.current_exists then []
     else ["current_csv not found: " ++ inp.current_path])
  if errors ≠ [] then
    ({ success := false, mode := mode, errors := some errors,
       paths := some (inp.metocean_path, inp.current_path),
       missing_columns := none, metocean := none, current := none }, 1)
  else
    let nrows := modeNrows mode
    let metocean_df := read_csv inp.metocean_csv nrows
    let current_df := read_csv inp.current_csv nrows
    let metocean_missing := missing_columns metocean_df METOCEAN_REQUIRED
    let current_missing := missing_columns current_df CURRENT_REQUIRED
    if metocean_missing ≠ [] ∨ current_missing ≠ [] then
      ({ success := false, mode := mode,
         errors := some ["required columns missing"],
         paths := none,
         missing_columns := some (metocean_missing, current_missing),
         metocean := none, current := none }, 1)
    else
      let metocean_numeric_cols :=
        METOCEAN_REQUIRED.filter (fun c => c ≠ "valid_time")
      let current_numeric_cols :=
        CURRENT_REQUIRED.filter (fun c => c ≠ "index")
      ({ success := true, mode := mode, errors := none,
         paths := some (inp.metocean_path, inp.current_path),
         missing_columns := none,
         metocean := some
           { rows_read := metocean_df.nRows,
             columns := metocean_df.columns,
             required_columns_ok := true,
             numeric_stats := numeric_stats metocean_df metocean_numeric_cols },
         current := some
           { rows_read := current_df.nRows,
             columns := current_df.columns,
             required_columns_ok := true,
             numeric_stats := numeric_stats current_df current_numeric_cols } },
       0)

/-- What `check_data.main` prints: either the report from `run`, or the
`{"success": false, "mode": ..., "error": ...}` payload from the
top-level exception handler. -/
inductive DataOut where
  | report : DataReport → DataOut
  | failure : String → String → DataOut
deriving DecidableEq, Repr

/-- The `success` field of the emitted JSON payload. -/
def DataOut.success : DataOut → Bool
  | .report r => r.success
  | .failure _ _ => false

/-- `check_data.main` after argument parsing: run the core with the
parsed mode, catching any exception into a failure payload with exit
code 1. -/
def main (mode : String) (r : Except String Input) : DataOut × Nat :=
  match r with
  | .error e => (.failure mode e, 1)
  | .ok inp => ((.report (run inp mode).1), (run inp mode).2)

end CheckData

namespace Smoke

/-- The runtime configuration keys consumed by `smoke_iform.run`. -/
structure RuntimeCfg where
  smoke_primary_var : String
  smoke_secondary_var : String
  smoke_max_rows : Nat
  smoke_random_seed : Nat
  smoke_n_points : Nat
  state_duration_hours : ℚ
deriving DecidableEq, Repr

/-- Whether a row survives `_prepare_data`'s cleaning: both configured
columns coerce to numbers (`to_numeric` + `dropna`) and both values are
strictly positive. -/
def coercePos (r : Cell × Cell) : Bool :=
  match r.1.toNum, r.2.toNum with
  | some a, some b => decide (0 < a) && decide (0 < b)
  | _, _ => false

/-- Modelled from the spec: `pandas.DataFrame.sample(n, random_state)` is
external library code, not part of this repository; the spec requires
only that with a fixed seed it deterministically selects exactly `n` of
the rows.  We model it as a pure function of the seed and the row list —
a seed-dependent rotation followed by a prefix — which is deterministic
and returns `min n rows.length` rows. -/
def pandasSample (random_state : Nat) (n : Nat) (rows : List α) : List α :=
  let k := random_state % (rows.length + 1)
  ((rows.drop k) ++ (rows.take k)).take n

theorem pandasSample_length (random_state n : Nat) (rows : List α) :
    (pandasSample random_state n rows).length = min n rows.length := by
  simp [pandasSample]
  omega

theorem mem_of_mem_pandasSample {random_state n : Nat} {rows : List α}
    {a : α} (h : a ∈ pandasSample random_state n rows) : a ∈ rows := by
  simp only [pandasSample] at h
  have h2 := List.mem_of_mem_take h
  rcases List.mem_append.mp h2 with h3 | h3
  · exact List.mem_of_mem_drop h3
  · exact List.mem_of_mem_take h3

/-- `_prepare_data`: read the two configured columns, coerce both to
numeric, drop rows with missing or non-positive values, subsample to
`max_rows` with the configured seed when more rows remain, and fail when
the result is empty.  Returns the prepared sample and the raw row
count. -/
def prepare_data (rows : List (Cell × Cell)) (max_rows random_seed : Nat) :
    Except String (List (Cell × Cell) × Nat) :=
  let raw_rows := rows.length
  let clean := rows.filter coercePos
  let sampled :=
    if max_rows < clean.length then pandasSample random_seed max_rows clean
    else clean
  if sampled.isEmpty then
    .error "No valid samples remain after preprocessing."
  else
    .ok (sampled, raw_rows)

/-- Modelled from the spec: `virocon.calculate_alpha` converts a
sea-state duration in hours and a recurrence period in years to the
exceedance probability `alpha`; it is external library code that this
repository treats as opaque.  The spec requires only that `alpha` is
derived from the state-duration-hours value and the recurrence period. -/
def calculate_alpha (state_duration_hours : ℚ) (return_period_years : ℚ) : ℚ :=
  state_duration_hours / (return_period_years * 365.25 * 24)

/-- The numeric two-column array handed to `model.fit`
(`sample_df[[primary, secondary]].to_numpy()`); every row of the
prepared sample is numeric in both columns. -/
def data2d (sample : List (Cell × Cell)) : List (ℚ × ℚ) :=
  sample.map (fun r => (r.1.toNum.getD 0, r.2.toNum.getD 0))

/-- Modelled from the spec: `GlobalHierarchicalModel` fitting and
`IFORMContour` coordinate extraction are supplied entirely by the
external statistics library (spec §6 treats it as an opaque
dependency).  The spec constrains only that the contour is an ordered
sequence of coordinate pairs computed deterministically from the fitted
sample, the exceedance probability and the requested point count; the
numeric content of the points is abstracted. -/
def IFORM_coordinates (data : List (ℚ × ℚ)) (alpha : ℚ) (n_points : Nat) :
    List (ℚ × ℚ) :=
  (List.range n_points).map (fun i => ((i : ℚ), alpha + (data.length : ℚ)))

/-- The JSON summary of a successful `smoke_iform.run` (the output file
path strings and the per-variable maxima of the abstracted contour are
omitted). -/
structure SmokePayload where
  success : Bool
  raw_rows_read : Nat
  rows_used : Nat
  primary_var : String
  secondary_var : String
  alpha : ℚ
  contour_points : Nat
deriving DecidableEq, Repr

/-- Input to one run of the smoke pipeline: the runtime configuration and
the metocean CSV restricted to the two configured columns
(`usecols=[primary_var, secondary_var]`). -/
structure Input where
  runtime : RuntimeCfg
  metocean_rows : List (Cell × Cell)
deriving Repr

/-- `smoke_iform.run`: prepare the data (exceptions propagate), fit the
model, compute the single 50-year contour with
`alpha = calculate_alpha(state_duration_hours, 50)`, and summarise.
Writing the coordinate CSV and the plot are filesystem side effects with
no bearing on the payload. -/
def run (inp : Input) : Except String (SmokePayload × Nat) :=
  let cfg := inp.runtime
  match prepare_data inp.metocean_rows cfg.smoke_max_rows cfg.smoke_random_seed with
  | .error e => .error e
  | .ok (sample_df, raw_rows) =>
    let alpha := calculate_alpha cfg.state_duration_hours 50
    let coordinates :=
      IFORM_coordinates (data2d sample_df) alpha cfg.smoke_n_points
    .ok ({ success := true,
           raw_rows_read := raw_rows,
           rows_used := sample_df.length,
           primary_var := cfg.smoke_primary_var,
           secondary_var := cfg.smoke_secondary_var,
           alpha := alpha,
           contour_points := coordinates.length }, 0)

/-- What `smoke_iform.main` prints: either the summary from `run`, or the
`{"success": false, "error": ...}` payload from the top-level exception
handler. -/
inductive SmokeOut where
  | payload : SmokePayload → SmokeOut
  | failure : String → SmokeOut
deriving DecidableEq, Repr

/-- The `success` field of the emitted JSON payload. -/
def SmokeOut.success : SmokeOut → Bool
  | .payload p => p.success
  | .failure _ => false

/-- `smoke_iform.main` after argument parsing: run the core, catching any
exception (including the data error from `_prepare_data`) into a failure
payload with exit code 1. -/
def main (r : Except String Input) : SmokeOut × Nat :=
  match r with
  | .error e => (.failure e, 1)
  | .ok inp =>
    match run inp with
    | .error e => (.failure e, 1)
    | .ok (p, c) => ((.payload p), c)

end Smoke

/-- C1: the environment checker's reported success flag is true exactly
when every module in the fixed list imported without exception and the
resolved virocon file path is strictly nested under the resolved
configured repo root; any single import failure or a virocon path
outside the root forces success to be false. -/
theorem c1_env_success_iff (inp : CheckEnv.Input) :
    (CheckEnv.run inp).1.success = true ↔
      (CheckEnv.module_names.all inp.importOk = true ∧
       CheckEnv.ancestorOf inp.repoRoot inp.viroconFile = true) := by
  by_cases h : inp.importOk "virocon" = true
  · simp [CheckEnv.run, h, List.all_map, List.all_eq_true, Function.comp]
  · simp only [Bool.not_eq_true] at h
    simp [CheckEnv.run, h, List.all_map, List.all_eq_true, Function.comp]
    intro hall
    have := hall "virocon" (by simp [CheckEnv.module_names])
    rw [this] at h
    exact absurd h (by simp)

/-- A concrete environment-checker input: every import succeeds and the
virocon file sits two levels below the repo root. -/
def envDemo : CheckEnv.Input where
  importOk := fun _ => true
  viroconFile := ["/", "repo", "virocon", "__init__.py"]
  repoRoot := ["/", "repo"]

/-- Witness for C1 at a concrete input. -/
theorem c1_env_success_iff_witness :
    (CheckEnv.run envDemo).1.success = true ↔
      (CheckEnv.module_names.all envDemo.importOk = true ∧
       CheckEnv.ancestorOf envDemo.repoRoot envDemo.viroconFile = true) :=
  c1_env_success_iff envDemo

theorem env_run_code (inp : CheckEnv.Input) :
    ((CheckEnv.run inp).2 = 0 ↔ (CheckEnv.run inp).1.success = true) ∧
      ((CheckEnv.run inp).2 = 0 ∨ (CheckEnv.run inp).2 = 1) := by
  simp only [CheckEnv.run]
  split <;> simp_all

theorem data_run_code (inp : CheckData.Input) (mode : String) :
    ((CheckData.run inp mode).2 = 0 ↔ (CheckData.run inp mode).1.success = true) ∧
      ((CheckData.run inp mode).2 = 0 ∨ (CheckData.run inp mode).2 = 1) := by
  cases hme : inp.metocean_exists <;> cases hce : inp.current_exists
  · simp [CheckData.run, hme, hce]
  · simp [CheckData.run, hme, hce]
  · simp [CheckData.run, hme, hce]
  · simp [CheckData.run, hme, hce]
    split <;> simp

theorem smoke_run_ok {inp : Smoke.Input} {p : Smoke.SmokePayload} {c : Nat}
    (h : Smoke.run inp = .ok (p, c)) : p.success = true ∧ c = 0 := by
  simp only [Smoke.run] at h
  cases hp : Smoke.prepare_data inp.metocean_rows inp.runtime.smoke_max_rows
      inp.runtime.smoke_random_seed with
  | error e => rw [hp] at h; simp at h
  | ok pr =>
    rw [hp] at h
    cases pr with
    | mk sample raw =>
      simp only [Except.ok.injEq, Prod.mk.injEq] at h
      obtain ⟨h1, h2⟩ := h
      subst h2
      rw [← h1]
      exact ⟨rfl, rfl⟩

/-- C2: for every invocation of any of the three utilities (environment
checker, data checker, smoke pipeline), the process exit code is 0 iff
the emitted payload has `"success": true`; every failure — including any
uncaught exception in the core logic — yields `"success": false` with
exit code 1, and no exit code other than 0 or 1 occurs. -/
theorem c2_uniform_exit_codes :
    (∀ r : Except String CheckEnv.Input,
        ((CheckEnv.main r).2 = 0 ↔ (CheckEnv.main r).1.success = true) ∧
        ((CheckEnv.main r).2 = 0 ∨ (CheckEnv.main r).2 = 1)) ∧
    (∀ (mode : String) (r : Except String CheckData.Input),
        ((CheckData.main mode r).2 = 0 ↔
          (CheckData.main mode r).1.success = true) ∧
        ((CheckData.main mode r).2 = 0 ∨ (CheckData.main mode r).2 = 1)) ∧
    (∀ r : Except String Smoke.Input,
        ((Smoke.main r).2 = 0 ↔ (Smoke.main r).1.success = true) ∧
        ((Smoke.main r).2 = 0 ∨ (Smoke.main r).2 = 1)) := by
  refine ⟨fun r => ?_, fun mode r => ?_, fun r => ?_⟩
  · cases r with
    | error e => simp [CheckEnv.main, CheckEnv.EnvOut.success]
    | ok inp =>
      have h := env_run_code inp
      simpa [CheckEnv.main, CheckEnv.EnvOut.success] using h
  · cases r with
    | error e => simp [CheckData.main, CheckData.DataOut.success]
    | ok inp =>
      have h := data_run_code inp mode
      simpa [CheckData.main, CheckData.DataOut.success] using h
  · cases r with
    | error e => simp [Smoke.main, Smoke.SmokeOut.success]
    | ok inp =>
      cases hr : Smoke.run inp with
      | error e => simp [Smoke.main, hr, Smoke.SmokeOut.success]
      | ok pr =>
        cases pr with
        | mk p c =>
          have := smoke_run_ok hr
          simp [Smoke.main, hr, Smoke.SmokeOut.success, this.1, this.2]

/-- Witness for C2 at concrete invocations (a top-level exception in each
tool). -/
theorem c2_uniform_exit_codes_witness :
    (((CheckEnv.main (Except.error "boom")).2 = 0 ↔
        (CheckEnv.main (Except.error "boom")).1.success = true) ∧
      ((CheckEnv.main (Except.error "boom")).2 = 0 ∨
        (CheckEnv.main (Except.error "boom")).2 = 1)) ∧
    (((CheckData.main "quick" (Except.error "boom")).2 = 0 ↔
        (CheckData.main "quick" (Except.error "boom")).1.success = true) ∧
      ((CheckData.main "quick" (Except.error "boom")).2 = 0 ∨
        (CheckData.main "quick" (Except.error "boom")).2 = 1)) ∧
    (((Smoke.main (Except.error "boom")).2 = 0 ↔
        (Smoke.main (Except.error "boom")).1.success = true) ∧
      ((Smoke.main (Except.error "boom")).2 = 0 ∨
        (Smoke.main (Except.error "boom")).2 = 1)) :=
  ⟨c2_uniform_exit_codes.1 (Except.error "boom"),
   c2_uniform_exit_codes.2.1 "quick" (Except.error "boom"),
   c2_uniform_exit_codes.2.2 (Except.error "boom")⟩

/-- C3: when at least one of the two configured CSV files does not exist,
the data checker returns success=false with exit code 1, an errors list
naming exactly the missing paths, and performs no column checking or
statistics computation (the report carries no column or statistics
fields). -/
theorem c3_missing_files (inp : CheckData.Input) (mode : String)
    (h : inp.metocean_exists = false ∨ inp.current_exists = false) :
    (CheckData.run inp mode).1.success = false ∧
    (CheckData.run inp mode).2 = 1 ∧
    (CheckData.run inp mode).1.errors = some
      ((if inp.metocean_exists then []
        else ["metocean_csv not found: " ++ inp.metocean_path]) ++
       (if inp.current_exists then []
        else ["current_csv not found: " ++ inp.current_path])) ∧
    (CheckData.run inp mode).1.missing_columns = none ∧
    (CheckData.run inp mode).1.metocean = none ∧
    (CheckData.run inp mode).1.current = none := by
  cases hme : inp.metocean_exists <;> cases hce : inp.current_exists
  all_goals simp_all [CheckData.run]

/-- A concrete data-checker input whose metocean CSV is missing. -/
def dataDemoMissing : CheckData.Input where
  metocean_path := "/data/met.csv"
  current_path := "/data/cur.csv"
  metocean_exists := false
  current_exists := true
  metocean_csv := ⟨[]⟩
  current_csv := ⟨[]⟩

/-- Witness for C3 at a concrete input with a missing metocean file. -/
theorem c3_missing_files_witness :
    (CheckData.run dataDemoMissing "quick").1.success = false ∧
    (CheckData.run dataDemoMissing "quick").2 = 1 ∧
    (CheckData.run dataDemoMissing "quick").1.errors = some
      ((if dataDemoMissing.metocean_exists then []
        else ["metocean_csv not found: " ++ dataDemoMissing.metocean_path]) ++
       (if dataDemoMissing.current_exists then []
        else ["current_csv not found: " ++ dataDemoMissing.current_path])) ∧
    (CheckData.run dataDemoMissing "quick").1.missing_columns = none ∧
    (CheckData.run dataDemoMissing "quick").1.metocean = none ∧
    (CheckData.run dataDemoMissing "quick").1.current = none :=
  c3_missing_files dataDemoMissing "quick" (Or.inl rfl)

/-- C4: when both CSV files exist but a required column is absent from
either dataset (as read under the given mode), the data checker returns
success=false with exit code 1 and a missing-columns record listing, per
dataset, exactly the required names absent from that dataset's columns,
and computes no numeric statistics. -/
theorem c4_missing_columns (inp : CheckData.Input) (mode : String)
    (hme : inp.metocean_exists = true) (hce : inp.current_exists = true)
    (h : CheckData.missing_columns
           (CheckData.read_csv inp.metocean_csv (CheckData.modeNrows mode))
           CheckData.METOCEAN_REQUIRED ≠ [] ∨
         CheckData.missing_columns
           (CheckData.read_csv inp.current_csv (CheckData.modeNrows mode))
           CheckData.CURRENT_REQUIRED ≠ []) :
    (CheckData.run inp mode).1.success = false ∧
    (CheckData.run inp mode).2 = 1 ∧
    (CheckData.run inp mode).1.missing_columns = some
      (CheckData.missing_columns
         (CheckData.read_csv inp.metocean_csv (CheckData.modeNrows mode))
         CheckData.METOCEAN_REQUIRED,
       CheckData.missing_columns
         (CheckData.read_csv inp.current_csv (CheckData.modeNrows mode))
         CheckData.CURRENT_REQUIRED) ∧
    (CheckData.run inp mode).1.errors = some ["required columns missing"] ∧
    (CheckData.run inp mode).1.metocean = none ∧
    (CheckData.run inp mode).1.current = none ∧
    (∀ col, col ∈ CheckData.missing_columns
        (CheckData.read_csv inp.metocean_csv (CheckData.modeNrows mode))
        CheckData.METOCEAN_REQUIRED ↔
      (col ∈ CheckData.METOCEAN_REQUIRED ∧
       col ∉ (CheckData.read_csv inp.metocean_csv
                (CheckData.modeNrows mode)).columns)) ∧
    (∀ col, col ∈ CheckData.missing_columns
        (CheckData.read_csv inp.current_csv (CheckData.modeNrows mode))
        CheckData.CURRENT_REQUIRED ↔
      (col ∈ CheckData.CURRENT_REQUIRED ∧
       col ∉ (CheckData.read_csv inp.current_csv
                (CheckData.modeNrows mode)).columns)) := by
  refine ⟨?_, ?_, ?_, ?_, ?_, ?_, ?_, ?_⟩
  all_goals
    first
    | (simp only [CheckData.run, hme, hce, if_true, List.append_nil,
         List.nil_append]
       rw [if_neg (by simp)]
       rw [if_pos h])
    | (intro col
       simp [CheckData.missing_columns, List.mem_filter])

/-- A concrete data-checker input where both files exist but both CSVs
have no columns at all. -/
def dataDemoNoCols : CheckData.Input where
  metocean_path := "/data/met.csv"
  current_path := "/data/cur.csv"
  metocean_exists := true
  current_exists := true
  metocean_csv := ⟨[]⟩
  current_csv := ⟨[]⟩

/-- Witness for C4 at a concrete input with all required columns
missing. -/
theorem c4_missing_columns_witness :
    (CheckData.run dataDemoNoCols "full").1.success = false ∧
    (CheckData.run dataDemoNoCols "full").2 = 1 ∧
    (CheckData.run dataDemoNoCols "full").1.errors =
      some ["required columns missing"] ∧
    (CheckData.run dataDemoNoCols "full").1.metocean = none :=
  have h := c4_missing_columns dataDemoNoCols "full" rfl rfl
    (Or.inl (by decide))
  ⟨h.1, h.2.1, h.2.2.2.1, h.2.2.2.2.1⟩

theorem nRows_takeRows (d : CheckData.Df) (n : Nat) :
    (d.takeRows n).nRows = min n d.nRows := by
  cases d with
  | mk cols =>
    cases cols with
    | nil => simp [CheckData.Df.takeRows, CheckData.Df.nRows]
    | cons p rest =>
      simp [CheckData.Df.takeRows, CheckData.Df.nRows, List.length_take]

theorem run_metocean_rows {inp : CheckData.Input} {mode : String}
    {rep : CheckData.DatasetReport}
    (h : (CheckData.run inp mode).1.metocean = some rep) :
    rep.rows_read =
      (CheckData.read_csv inp.metocean_csv (CheckData.modeNrows mode)).nRows := by
  cases hme : inp.metocean_exists <;> cases hce : inp.current_exists
  · simp [CheckData.run, hme, hce] at h
  · simp [CheckData.run, hme, hce] at h
  · simp [CheckData.run, hme, hce] at h
  · simp only [CheckData.run, hme, hce, if_true, List.append_nil,
      List.nil_append] at h
    rw [if_neg (by simp)] at h
    split at h
    · simp at h
    · simp only [Option.some.injEq] at h
      subst h
      rfl

theorem run_current_rows {inp : CheckData.Input} {mode : String}
    {rep : CheckData.DatasetReport}
    (h : (CheckData.run inp mode).1.current = some rep) :
    rep.rows_read =
      (CheckData.read_csv inp.current_csv (CheckData.modeNrows mode)).nRows := by
  cases hme : inp.metocean_exists <;> cases hce : inp.current_exists
  · simp [CheckData.run, hme, hce] at h
  · simp [CheckData.run, hme, hce] at h
  · simp [CheckData.run, hme, hce] at h
  · simp only [CheckData.run, hme, hce, if_true, List.append_nil,
      List.nil_append] at h
    rw [if_neg (by simp)] at h
    split at h
    · simp at h
    · simp only [Option.some.injEq] at h
      subst h
      rfl

/-- C8: the data checker's quick mode reads at most the first 5000 rows
of each CSV — exactly 5000 when the file has more than 5000 data rows —
while full mode reads every row; a dataset report's `rows_read` always
equals the row count of the corresponding (possibly truncated) read. -/
theorem c8_quick_full_row_limits :
    (∀ d : CheckData.Df, CheckData.read_csv d (CheckData.modeNrows "full") = d) ∧
    (∀ d : CheckData.Df,
        CheckData.read_csv d (CheckData.modeNrows "quick") = d.takeRows 5000) ∧
    (∀ d : CheckData.Df,
        (CheckData.read_csv d (CheckData.modeNrows "quick")).nRows =
          min 5000 d.nRows) ∧
    (∀ d : CheckData.Df, 5000 < d.nRows →
        (CheckData.read_csv d (CheckData.modeNrows "quick")).nRows = 5000) ∧
    (∀ (inp : CheckData.Input) (mode : String) (rep : CheckData.DatasetReport),
        (CheckData.run inp mode).1.metocean = some rep →
        rep.rows_read =
          (CheckData.read_csv inp.metocean_csv (CheckData.modeNrows mode)).nRows) ∧
    (∀ (inp : CheckData.Input) (mode : String) (rep : CheckData.DatasetReport),
        (CheckData.run inp mode).1.current = some rep →
        rep.rows_read =
          (CheckData.read_csv inp.current_csv (CheckData.modeNrows mode)).nRows) := by
  refine ⟨?_, ?_, ?_, ?_, ?_, ?_⟩
  · intro d; simp [CheckData.read_csv, CheckData.modeNrows]
  · intro d; simp [CheckData.read_csv, CheckData.modeNrows]
  · intro d; simp [CheckData.read_csv, CheckData.modeNrows, nRows_takeRows]
  · intro d hd
    simp [CheckData.read_csv, CheckData.modeNrows, nRows_takeRows]
    omega
  · intro inp mode rep h; exact run_metocean_rows h
  · intro inp mode rep h; exact run_current_rows h

theorem takeRows_wf (d : CheckData.Df) (n : Nat) (h : d.Wf) :
    (d.takeRows n).Wf := by
  intro p hp
  simp only [CheckData.Df.takeRows, List.mem_map] at hp
  obtain ⟨q, hq, rfl⟩ := hp
  rw [nRows_takeRows]
  simp [List.length_take, h q hq]

theorem read_csv_wf (d : CheckData.Df) (nrows : Option Nat) (h : d.Wf) :
    (CheckData.read_csv d nrows).Wf := by
  cases nrows with
  | none => exact h
  | some n => exact takeRows_wf d n h

theorem getCol_length {d : CheckData.Df} {col : String} (h : d.Wf)
    (hc : col ∈ d.columns) : (d.getCol col).length = d.nRows := by
  simp only [CheckData.Df.columns, List.mem_map] at hc
  obtain ⟨p, hp, rfl⟩ := hc
  have hsome : (d.cols.find? (fun r => r.1 == p.1)).isSome := by
    rw [List.find?_isSome]
    exact ⟨p, hp, by simp⟩
  obtain ⟨q, hq⟩ := Option.isSome_iff_exists.mp hsome
  have hqmem := List.mem_of_find?_eq_some hq
  simp only [CheckData.Df.getCol, hq]
  exact h q hqmem

theorem mem_columns_of_missing_nil {d : CheckData.Df} {req : List String}
    (h : CheckData.missing_columns d req = []) {col : String}
    (hc : col ∈ req) : col ∈ d.columns := by
  simp only [CheckData.missing_columns, List.filter_eq_nil_iff] at h
  have := h col hc
  simpa using this

theorem run_success_inv {inp : CheckData.Input} {mode : String}
    (hsucc : (CheckData.run inp mode).1.success = true) :
    inp.metocean_exists = true ∧ inp.current_exists = true ∧
    CheckData.missing_columns
      (CheckData.read_csv inp.metocean_csv (CheckData.modeNrows mode))
      CheckData.METOCEAN_REQUIRED = [] ∧
    CheckData.missing_columns
      (CheckData.read_csv inp.current_csv (CheckData.modeNrows mode))
      CheckData.CURRENT_REQUIRED = [] := by
  cases hme : inp.metocean_exists <;> cases hce : inp.current_exists
  · simp [CheckData.run, hme, hce] at hsucc
  · simp [CheckData.run, hme, hce] at hsucc
  · simp [CheckData.run, hme, hce] at hsucc
  · simp only [CheckData.run, hme, hce, if_true, List.append_nil,
      List.nil_append] at hsucc
    rw [if_neg (by simp)] at hsucc
    split at hsucc
    · simp at hsucc
    · rename_i h2
      push_neg at h2
      exact ⟨rfl, rfl, h2.1, h2.2⟩

/-- C5: on every successful data-checker run, numeric statistics are
computed exactly for the required columns minus the non-numeric
identifier columns (`valid_time` for metocean, `index` for current),
and for each such column the reported `na_rate` equals `na_count`
divided by the number of rows read. -/
theorem c5_success_numeric_stats (inp : CheckData.Input) (mode : String)
    (hwm : inp.metocean_csv.Wf) (hwc : inp.current_csv.Wf)
    (hsucc : (CheckData.run inp mode).1.success = true) :
    ∃ mrep crep : CheckData.DatasetReport,
      (CheckData.run inp mode).1.metocean = some mrep ∧
      (CheckData.run inp mode).1.current = some crep ∧
      mrep.numeric_stats.map Prod.fst =
        CheckData.METOCEAN_REQUIRED.filter (fun c => c ≠ "valid_time") ∧
      crep.numeric_stats.map Prod.fst =
        CheckData.CURRENT_REQUIRED.filter (fun c => c ≠ "index") ∧
      (∀ col s, (col, s) ∈ mrep.numeric_stats → 0 < mrep.rows_read →
        s.na_rate = some ((s.na_count : ℚ) / (mrep.rows_read : ℚ))) ∧
      (∀ col s, (col, s) ∈ crep.numeric_stats → 0 < crep.rows_read →
        s.na_rate = some ((s.na_count : ℚ) / (crep.rows_read : ℚ))) := by
  obtain ⟨hme, hce, hmm, hcm⟩ := run_success_inv hsucc
  have hrun : CheckData.run inp mode =
      ({ success := true, mode := mode, errors := none,
         paths := some (inp.metocean_path, inp.current_path),
         missing_columns := none,
         metocean := some
           { rows_read := (CheckData.read_csv inp.metocean_csv
               (CheckData.modeNrows mode)).nRows,
             columns := (CheckData.read_csv inp.metocean_csv
               (CheckData.modeNrows mode)).columns,
             required_columns_ok := true,
             numeric_stats := CheckData.numeric_stats
               (CheckData.read_csv inp.metocean_csv (CheckData.modeNrows mode))
               (CheckData.METOCEAN_REQUIRED.filter (fun c => c ≠ "valid_time")) },
         current := some
           { rows_read := (CheckData.read_csv inp.current_csv
               (CheckData.modeNrows mode)).nRows,
             columns := (CheckData.read_csv inp.current_csv
               (CheckData.modeNrows mode)).columns,
             required_columns_ok := true,
             numeric_stats := CheckData.numeric_stats
               (CheckData.read_csv inp.current_csv (CheckData.modeNrows mode))
               (CheckData.CURRENT_REQUIRED.filter (fun c => c ≠ "index")) } },
       0) := by
    simp only [CheckData.run, hme, hce, if_true, List.append_nil,
      List.nil_append]
    rw [if_neg (by simp)]
    rw [if_neg (by simp [hmm, hcm])]
  refine ⟨_, _, by rw [hrun], by rw [hrun], ?_, ?_, ?_, ?_⟩
  · simp [CheckData.numeric_stats, List.map_map, Function.comp_def]
  · simp [CheckData.numeric_stats, List.map_map, Function.comp_def]
  · intro col s hmem hpos
    simp only [CheckData.numeric_stats, List.mem_map, Prod.mk.injEq] at hmem
    obtain ⟨col', hcol', rfl, rfl⟩ := hmem
    have hreq : col' ∈ CheckData.METOCEAN_REQUIRED :=
      List.mem_of_mem_filter hcol'
    have hcolumns := mem_columns_of_missing_nil hmm hreq
    have hwf := read_csv_wf inp.metocean_csv (CheckData.modeNrows mode) hwm
    have hlen := getCol_length hwf hcolumns
    simp only at hpos
    have hne : ((CheckData.read_csv inp.metocean_csv
        (CheckData.modeNrows mode)).getCol col').length ≠ 0 := by
      rw [hlen]; omega
    simp [CheckData.column_stats, hne, hlen]
    omega
  · intro col s hmem hpos
    simp only [CheckData.numeric_stats, List.mem_map, Prod.mk.injEq] at hmem
    obtain ⟨col', hcol', rfl, rfl⟩ := hmem
    have hreq : col' ∈ CheckData.CURRENT_REQUIRED :=
      List.mem_of_mem_filter hcol'
    have hcolumns := mem_columns_of_missing_nil hcm hreq
    have hwf := read_csv_wf inp.current_csv (CheckData.modeNrows mode) hwc
    have hlen := getCol_length hwf hcolumns
    simp only at hpos
    have hne : ((CheckData.read_csv inp.current_csv
        (CheckData.modeNrows mode)).getCol col').length ≠ 0 := by
      rw [hlen]; omega
    simp [CheckData.column_stats, hne, hlen]
    omega

/-- A concrete well-formed metocean dataframe with every required column
and two rows. -/
def metDemoDf : CheckData.Df := ⟨[
  ("valid_time", [Cell.text, Cell.text]),
  ("10米风速", [Cell.num 5, Cell.na]),
  ("有义波高", [Cell.num 1, Cell.num 2]),
  ("峰值波周期", [Cell.num 7, Cell.text])]⟩

/-- A concrete well-formed current dataframe with every required column
and two rows. -/
def curDemoDf : CheckData.Df := ⟨[
  ("index", [Cell.text, Cell.text]),
  ("流速 （节）", [Cell.num 1, Cell.num 3]),
  ("流向 - 去向", [Cell.num 10, Cell.num 20])]⟩

/-- A concrete data-checker input on which the run succeeds. -/
def dataDemoOk : CheckData.Input where
  metocean_path := "/data/met.csv"
  current_path := "/data/cur.csv"
  metocean_exists := true
  current_exists := true
  metocean_csv := metDemoDf
  current_csv := curDemoDf

/-- Witness for C5 at a concrete successful run. -/
theorem c5_success_numeric_stats_witness :
    (CheckData.run dataDemoOk "full").1.success = true ∧
    (CheckData.run dataDemoOk "full").1.metocean ≠ none :=
  have h := c5_success_numeric_stats dataDemoOk "full"
    (by unfold CheckData.Df.Wf; decide) (by unfold CheckData.Df.Wf; decide)
    (by decide)
  ⟨by decide, by obtain ⟨m, c, hm, _⟩ := h; simp [hm]⟩

/-- C10: in every column analyzed by `_numeric_stats`, the reported min
is None iff the reported max is None, which holds exactly when no value
in the column coerces to a number; when both are present, min ≤ max. -/
theorem c10_min_max_consistency (cells : List Cell) :
    ((CheckData.column_stats cells).min = none ↔
      (CheckData.column_stats cells).max = none) ∧
    ((CheckData.column_stats cells).min = none ↔
      ∀ c ∈ cells, c.toNum = none) ∧
    (∀ a b, (CheckData.column_stats cells).min = some a →
      (CheckData.column_stats cells).max = some b → a ≤ b) := by
  refine ⟨?_, ?_, ?_⟩
  · simp [CheckData.column_stats, listMin_eq_none_iff, listMax_eq_none_iff]
  · simp [CheckData.column_stats, listMin_eq_none_iff,
      List.filterMap_eq_nil_iff]
  · intro a b ha hb
    exact listMin_le_listMax (cells.filterMap Cell.toNum) a b ha hb

/-- Witness for C10 at a concrete column with numeric, missing and text
cells. -/
theorem c10_min_max_consistency_witness :
    (((CheckData.column_stats [Cell.num 3, Cell.na, Cell.text, Cell.num 1]).min
        = none ↔
      (CheckData.column_stats [Cell.num 3, Cell.na, Cell.text, Cell.num 1]).max
        = none) ∧
    ((CheckData.column_stats [Cell.num 3, Cell.na, Cell.text, Cell.num 1]).min
        = none ↔
      ∀ c ∈ [Cell.num 3, Cell.na, Cell.text, Cell.num 1], c.toNum = none)) ∧
    (1 : ℚ) ≤ 3 :=
  ⟨⟨(c10_min_max_consistency [Cell.num 3, Cell.na, Cell.text, Cell.num 1]).1,
    (c10_min_max_consistency [Cell.num 3, Cell.na, Cell.text, Cell.num 1]).2.1⟩,
   (c10_min_max_consistency [Cell.num 3, Cell.na, Cell.text, Cell.num 1]).2.2
     1 3 (by decide) (by decide)⟩

/-- C6: every row of the prepared smoke sample has both configured
columns numeric and strictly positive; the raw row count is reported;
when more than `max_rows` cleaned rows exist the sample is cut to
exactly `max_rows` rows (deterministically, via the seeded subsample),
otherwise the cleaned rows are kept as is; and when zero rows survive
cleaning the preparation fails with the data error. -/
theorem c6_prepare_data_props (rows : List (Cell × Cell))
    (max_rows random_seed : Nat) :
    (∀ (sample : List (Cell × Cell)) (raw_rows : Nat),
        Smoke.prepare_data rows max_rows random_seed = .ok (sample, raw_rows) →
        (∀ r ∈ sample, Smoke.coercePos r = true) ∧
        raw_rows = rows.length ∧
        (max_rows < (rows.filter Smoke.coercePos).length →
          sample.length = max_rows) ∧
        ((rows.filter Smoke.coercePos).length ≤ max_rows →
          sample = rows.filter Smoke.coercePos)) ∧
    ((rows.filter Smoke.coercePos).length = 0 →
      Smoke.prepare_data rows max_rows random_seed =
        .error "No valid samples remain after preprocessing.") := by
  constructor
  · intro sample raw_rows hok
    by_cases hcase : max_rows < (rows.filter Smoke.coercePos).length
    · simp only [Smoke.prepare_data, if_pos hcase] at hok
      split at hok
      · simp at hok
      · simp only [Except.ok.injEq, Prod.mk.injEq] at hok
        obtain ⟨hs, hr⟩ := hok
        refine ⟨?_, hr.symm, fun _ => ?_, fun hle => absurd hcase (by omega)⟩
        · intro r hrmem
          rw [← hs] at hrmem
          exact (List.mem_filter.mp (Smoke.mem_of_mem_pandasSample hrmem)).2
        · rw [← hs, Smoke.pandasSample_length]
          omega
    · simp only [Smoke.prepare_data, if_neg hcase] at hok
      split at hok
      · simp at hok
      · simp only [Except.ok.injEq, Prod.mk.injEq] at hok
        obtain ⟨hs, hr⟩ := hok
        refine ⟨?_, hr.symm, fun hlt => absurd hlt hcase, fun _ => hs.symm⟩
        intro r hrmem
        rw [← hs] at hrmem
        exact (List.mem_filter.mp hrmem).2
  · intro hzero
    have hnil : rows.filter Smoke.coercePos = [] :=
      List.length_eq_zero.mp hzero
    simp [Smoke.prepare_data, hnil]

/-- Ten identical valid rows for the concrete subsampling scenario. -/
def rows10 : List (Cell × Cell) := List.replicate 10 (Cell.num 1, Cell.num 2)

/-- Witness for C6: ten cleaned rows with cap 5 and seed 42 yield exactly
5 rows. -/
theorem c6_prepare_data_props_witness :
    Smoke.prepare_data rows10 5 42 =
      Except.ok (List.replicate 5 ((Cell.num 1, Cell.num 2) : Cell × Cell), 10) ∧
    5 < (rows10.filter Smoke.coercePos).length ∧
    (List.replicate 5 ((Cell.num 1, Cell.num 2) : Cell × Cell)).length = 5 :=
  ⟨by rfl, by decide,
   ((c6_prepare_data_props rows10 5 42).1
       (List.replicate 5 ((Cell.num 1, Cell.num 2) : Cell × Cell)) 10
       (by rfl)).2.2.1 (by decide)⟩

theorem smoke_run_alpha {inp : Smoke.Input} {p : Smoke.SmokePayload} {c : Nat}
    (h : Smoke.run inp = .ok (p, c)) :
    p.alpha = Smoke.calculate_alpha inp.runtime.state_duration_hours 50 := by
  simp only [Smoke.run] at h
  cases hp : Smoke.prepare_data inp.metocean_rows inp.runtime.smoke_max_rows
      inp.runtime.smoke_random_seed with
  | error e => rw [hp] at h; simp at h
  | ok pr =>
    rw [hp] at h
    cases pr with
    | mk sample raw =>
      simp only [Except.ok.injEq, Prod.mk.injEq] at h
      rw [← h.1]

/-- C7: every smoke-pipeline run computes exactly one contour whose
exceedance probability `alpha` is `calculate_alpha` of the configured
state-duration-hours and the fixed recurrence period of 50; the
recurrence period is not read from any configuration input, so two runs
agreeing on state-duration-hours report the same `alpha` regardless of
every other configuration value. -/
theorem c7_fixed_recurrence_period :
    (∀ (inp : Smoke.Input) (p : Smoke.SmokePayload) (c : Nat),
        Smoke.run inp = .ok (p, c) →
        p.alpha = Smoke.calculate_alpha inp.runtime.state_duration_hours 50) ∧
    (∀ (inp₁ inp₂ : Smoke.Input) (p₁ p₂ : Smoke.SmokePayload) (c₁ c₂ : Nat),
        Smoke.run inp₁ = .ok (p₁, c₁) → Smoke.run inp₂ = .ok (p₂, c₂) →
        inp₁.runtime.state_duration_hours = inp₂.runtime.state_duration_hours →
        p₁.alpha = p₂.alpha) := by
  refine ⟨fun inp p c h => smoke_run_alpha h, ?_⟩
  intro inp₁ inp₂ p₁ p₂ c₁ c₂ h₁ h₂ hsd
  rw [smoke_run_alpha h₁, smoke_run_alpha h₂, hsd]

/-- The runtime configuration of the concrete smoke run. -/
def smokeDemoCfg : Smoke.RuntimeCfg where
  smoke_primary_var := "10米风速"
  smoke_secondary_var := "有义波高"
  smoke_max_rows := 5
  smoke_random_seed := 42
  smoke_n_points := 3
  state_duration_hours := 1

/-- A concrete smoke-pipeline input with one valid row. -/
def smokeDemo : Smoke.Input where
  runtime := smokeDemoCfg
  metocean_rows := [(Cell.num 1, Cell.num 2)]

/-- The payload of the concrete smoke run. -/
def smokeDemoPayload : Smoke.SmokePayload where
  success := true
  raw_rows_read := 1
  rows_used := 1
  primary_var := "10米风速"
  secondary_var := "有义波高"
  alpha := Smoke.calculate_alpha 1 50
  contour_points := 3

theorem smokeDemo_run : Smoke.run smokeDemo = .ok (smokeDemoPayload, 0) := rfl

/-- Witness for C7 at the concrete smoke run. -/
theorem c7_fixed_recurrence_period_witness :
    smokeDemoPayload.alpha =
      Smoke.calculate_alpha smokeDemo.runtime.state_duration_hours 50 :=
  c7_fixed_recurrence_period.1 smokeDemo smokeDemoPayload 0 smokeDemo_run

/-- C9: two smoke-pipeline runs on the same input CSV contents and the
same runtime configuration (seed, row cap, point count, state duration)
report equal subsampled row counts and equal contour point counts. -/
theorem c9_deterministic_outputs (inp : Smoke.Input)
    (p₁ p₂ : Smoke.SmokePayload) (c₁ c₂ : Nat)
    (h₁ : Smoke.run inp = .ok (p₁, c₁)) (h₂ : Smoke.run inp = .ok (p₂, c₂)) :
    p₁.rows_used = p₂.rows_used ∧ p₁.contour_points = p₂.contour_points := by
  rw [h₁] at h₂
  simp only [Except.ok.injEq, Prod.mk.injEq] at h₂
  rw [h₂.1]
  exact ⟨rfl, rfl⟩

/-- Witness for C9 at the concrete smoke run. -/
theorem c9_deterministic_outputs_witness :
    smokeDemoPayload.rows_used = smokeDemoPayload.rows_used ∧
    smokeDemoPayload.contour_points = smokeDemoPayload.contour_points :=
  c9_deterministic_outputs smokeDemo smokeDemoPayload smokeDemoPayload 0 0
    smokeDemo_run smokeDemo_run

/-- A concrete single-column dataframe with 5001 rows. -/
def bigDf : CheckData.Df := ⟨[("col", List.replicate 5001 Cell.na)]⟩

/-- Witness for C8: quick mode on a 5001-row file reads exactly 5000
rows; full mode reads all of it. -/
theorem bigDf_nRows : bigDf.nRows = 5001 :=
  List.length_replicate 5001 Cell.na

theorem c8_quick_full_row_limits_witness :
    CheckData.read_csv bigDf (CheckData.modeNrows "full") = bigDf ∧
    5000 < bigDf.nRows ∧
    (CheckData.read_csv bigDf (CheckData.modeNrows "quick")).nRows = 5000 :=
  ⟨c8_quick_full_row_limits.1 bigDf,
   by rw [bigDf_nRows]; norm_num,
   c8_quick_full_row_limits.2.2.2.1 bigDf (by rw [bigDf_nRows]; norm_num)⟩
